import Mathlib

/-!
Verification of the 25Live reservation scraper (`collegenet/__main__.py`).

The Python module is shallowly embedded below.  XML payloads parsed by
`xmltodict` are values of the inductive type `Value` (strings, dictionaries
with string keys, lists, and `None`); dynamic Python operations (`.get`,
`[]`, `in`, `int(...)`, truthiness) are modelled by explicit functions that
return `Except PyErr _` where the Python operation can raise.  The HTTP
layer (`_make_api_request`) and the stdlib datetime functions are external
collaborators and are modelled as parameters (a fetch oracle and a
`DatetimeOracle`).  All other definitions are transcribed directly from the
source, function by function.
-/

namespace Collegenet

/-- Python exceptions that the scraper's code paths can raise. `exn` stands
for the generic `Exception(...)` raised by `_make_api_request` on HTTP or
XML-parse failure. -/
inductive PyErr where
  | exn (msg : String)
  | keyError (key : String)
  | typeError
  | attributeError
  | valueError
  deriving Repr, DecidableEq

/-- The universe of values produced by `xmltodict.parse`: element text is a
string, an element with children or attributes is a dict, repeated elements
become lists, and an empty element becomes `None`. -/
inductive Value where
  | vNull
  | vStr (s : String)
  | vList (items : List Value)
  | vMap (entries : List (String × Value))

open Value

/-- Python truthiness: `None`, `""`, `[]` and the empty dict are falsy. -/
def pyTruthy : Value → Bool
  | vNull => false
  | vStr s => s ≠ ""
  | vList l => !l.isEmpty
  | vMap m => !m.isEmpty

/-- First binding of a key in a dict (Python dicts have unique keys; the
embedding keeps the first occurrence authoritative). -/
def mapLookup (m : List (String × Value)) (k : String) : Option Value :=
  match m with
  | [] => none
  | (k', v) :: rest => if k' = k then some v else mapLookup rest k

/-- `dict.get(k, d)` on a dict already known to be a dict. -/
def mapGetD (m : List (String × Value)) (k : String) (d : Value) : Value :=
  (mapLookup m k).getD d

/-- `v.get(k, d)`: raises `AttributeError` when the receiver is not a dict. -/
def pyGetD (v : Value) (k : String) (d : Value) : Except PyErr Value :=
  match v with
  | vMap m => .ok (mapGetD m k d)
  | _ => .error .attributeError

/-- `v[k]` with a string subscript: only dicts support it, and a missing key
raises `KeyError`. -/
def pyIndex (v : Value) (k : String) : Except PyErr Value :=
  match v with
  | vMap m =>
    match mapLookup m k with
    | some r => .ok r
    | none => .error (.keyError k)
  | _ => .error .typeError

/-- Contiguous-substring test on character lists (Python's `in` on `str`). -/
def charsContainSub (needle : List Char) : List Char → Bool
  | [] => needle.isEmpty
  | c :: rest => needle.isPrefixOf (c :: rest) || charsContainSub needle rest

/-- Python `==` between a value and a string: strings compare by content,
anything else compares unequal (no exception). -/
def valEqStr (v : Value) (s : String) : Bool :=
  match v with
  | vStr t => t = s
  | _ => false

/-- `s in v` for a string `s`: substring test on strings, element equality
on lists, key membership on dicts, `TypeError` on `None`. -/
def pyInV (s : String) (v : Value) : Except PyErr Bool :=
  match v with
  | vStr t => .ok (charsContainSub s.toList t.toList)
  | vList l => .ok (l.any (fun x => valEqStr x s))
  | vMap m => .ok (m.any (fun p => p.1 = s))
  | vNull => .error .typeError

/-- Accumulator pass over decimal digits; any non-digit character fails. -/
def pyDigits : List Char → Nat → Option Nat
  | [], acc => some acc
  | c :: rest, acc =>
    if c.isDigit then pyDigits rest (acc * 10 + (c.toNat - 48)) else none

/-- `int(s)` on a string: an optional sign followed by at least one
decimal digit; anything else is a `ValueError`. -/
def pyParseInt (s : String) : Option Int :=
  match s.data with
  | [] => none
  | '+' :: rest =>
    if rest.isEmpty then none else (pyDigits rest 0).map (fun n => (n : Int))
  | '-' :: rest =>
    if rest.isEmpty then none else (pyDigits rest 0).map (fun n => -(n : Int))
  | cs => (pyDigits cs 0).map (fun n => (n : Int))

/-- `int(v)`: parses a decimal string with an optional sign; a non-numeric
string raises `ValueError`, a non-string raises `TypeError`. -/
def pyToInt (v : Value) : Except PyErr Int :=
  match v with
  | vStr s =>
    match pyParseInt s with
    | some i => .ok i
    | none => .error .valueError
  | _ => .error .typeError

/-- `s.replace(",", "")`: removes every comma (the source only ever
replaces the single character `","` by the empty string, which is exactly
a character filter). -/
def pyStripCommas (s : String) : String :=
  ⟨s.data.filter (fun c => c ≠ ',')⟩

mutual

/-- Python `repr` of an xmltodict value (string escaping inside container
renderings is abstracted: inner strings are shown between plain quotes). -/
def pyRepr : Value → String
  | vNull => "None"
  | vStr s => "'" ++ s ++ "'"
  | vList l => "[" ++ pyReprItems l ++ "]"
  | vMap m => "\x7b" ++ pyReprEntries m ++ "\x7d"

def pyReprItems : List Value → String
  | [] => ""
  | [v] => pyRepr v
  | v :: rest => pyRepr v ++ ", " ++ pyReprItems rest

def pyReprEntries : List (String × Value) → String
  | [] => ""
  | [(k, v)] => "'" ++ k ++ "': " ++ pyRepr v
  | (k, v) :: rest => "'" ++ k ++ "': " ++ pyRepr v ++ ", " ++ pyReprEntries rest

end

/-- Python `str` (as used by f-string interpolation): a string renders
bare, containers render as their `repr`, `None` renders as `"None"`. -/
def pyStr (v : Value) : String :=
  match v with
  | vStr s => s
  | v => pyRepr v

/-- The stdlib datetime functions used by `_add_datetime_fields`, kept
abstract: `fromiso` is `datetime.fromisoformat` (`none` models the
`ValueError` it raises on non-ISO input), `timestamp` is
`int(dt.timestamp())`, and `strftime` is `dt.strftime("%m/%d/%Y %I:%M %p")`. -/
structure DatetimeOracle (DT : Type) where
  fromiso : String → Option DT
  timestamp : DT → Int
  strftime : DT → String

/-- `datetime.fromisoformat(v)` under a try-block that catches both
`TypeError` (non-string argument) and `ValueError` (bad format): both
failure modes collapse to `none`. -/
def parseDatetimeValue {DT : Type} (o : DatetimeOracle DT) (v : Value) : Option DT :=
  match v with
  | vStr s => o.fromiso s
  | _ => none

/-- Output of `_process_single_reservation`: the processed dict.  Keys the
source always assigns are `Value` fields (possibly `vNull`); keys that are
only assigned on some paths are `Option` fields, `none` meaning the key is
absent from the dict. -/
structure Processed where
  reservation_id : Value
  event_type : Value
  event_id : Value
  reservation_state : Value
  reservation_id_friendly : Value
  expected_attendance : Value
  start : Value
  end_ : Value
  organization : Value
  name : Value
  start_timestamp : Option Int
  end_timestamp : Option Int
  start_date_friendly : Option String
  end_date_friendly : Option String
  last_updated_friendly : Option String
  last_updated_timestamp : Option Int
  location_full : Option Value
  location_abbr : Option Value

/-- `_extract_event_id`: `reservation.get("r25:event_id", {})`, then
`.get("#text")` if the result is a dict, else the value verbatim. -/
def extract_event_id (m : List (String × Value)) : Value :=
  match mapGetD m "r25:event_id" (vMap []) with
  | vMap em => mapGetD em "#text" vNull
  | v => v

/-- `_combine_event_name_and_title`: `f"{name} - {title}"` when both are
truthy, otherwise `name or title`. -/
def combine_event_name_and_title (m : List (String × Value)) : Value :=
  let name := mapGetD m "r25:event_name" vNull
  let title := mapGetD m "r25:event_title" vNull
  if pyTruthy name ∧ pyTruthy title then
    vStr (pyStr name ++ " - " ++ pyStr title)
  else if pyTruthy name then name else title

/-- `_add_datetime_fields`: the six datetime-derived dict entries, in the
order the source assigns them.  Both `fromisoformat` calls precede every
assignment, so a failure of either leaves all six keys absent; a failure
on `last_mod_dt` happens after the first four assignments, which then
survive the caught exception. -/
def add_datetime_fields {DT : Type} (o : DatetimeOracle DT)
    (startv endv last_mod : Value) :
    Option Int × Option Int × Option String × Option String ×
      Option String × Option Int :=
  match parseDatetimeValue o startv, parseDatetimeValue o endv with
  | some st, some en =>
    let main := (some (o.timestamp st), some (o.timestamp en),
                 some (o.strftime st), some (o.strftime en))
    if pyTruthy last_mod then
      match parseDatetimeValue o last_mod with
      | some lm =>
        (main.1, main.2.1, main.2.2.1, main.2.2.2,
         some (o.strftime lm), some (o.timestamp lm))
      | none => (main.1, main.2.1, main.2.2.1, main.2.2.2, none, none)
    else (main.1, main.2.1, main.2.2.1, main.2.2.2, none, none)
  | _, _ => (none, none, none, none, none, none)

/-- Loop body of the `isinstance(space_reservations, list)` branch of
`_add_location_fields`: `space.get("r25:formal_name", "").replace(",", "")`
raises `AttributeError` when `space` is not a dict or when the fetched
name is not a string; truthy names are appended to the two lists. -/
def collectSpaceNames : List Value → Except PyErr (List String × List String)
  | [] => .ok ([], [])
  | space :: rest =>
    match space with
    | vMap m =>
      match mapGetD m "r25:formal_name" (vStr "") with
      | vStr fn0 =>
        match mapGetD m "r25:space_name" (vStr "") with
        | vStr an0 =>
          let fn := pyStripCommas fn0
          let an := pyStripCommas an0
          match collectSpaceNames rest with
          | .ok (fns, ans) =>
            .ok ((if fn ≠ "" then fn :: fns else fns),
                 (if an ≠ "" then an :: ans else ans))
          | .error e => .error e
        | _ => .error .attributeError
      | _ => .error .attributeError
    | _ => .error .attributeError

/-- `_add_location_fields` as a function of the `r25:space_reservation`
value, returning the two location dict entries (`none` = key not
assigned).  A falsy value yields the sentinel; a list strips commas and
joins the truthy names; a dict takes both names verbatim with a sentinel
default; any other truthy value falls through with neither key assigned. -/
def add_location_fields (space_reservations : Value) :
    Except PyErr (Option Value × Option Value) :=
  if ¬ pyTruthy space_reservations then
    .ok (some (vStr "Not Specified"), some (vStr "Not Specified"))
  else
    match space_reservations with
    | vList l =>
      match collectSpaceNames l with
      | .ok (fns, ans) =>
        .ok (some (vStr (String.intercalate ", " fns)),
             some (vStr (String.intercalate ", " ans)))
      | .error e => .error e
    | vMap m =>
      .ok (some (mapGetD m "r25:formal_name" (vStr "Not Specified")),
           some (mapGetD m "r25:space_name" (vStr "Not Specified")))
    | _ => .ok (none, none)

/-- `_process_single_reservation`: builds the processed dict.  All reads of
the raw reservation go through `.get`, so a non-dict argument raises
`AttributeError` at the first read; the only other raising step is
`_add_location_fields`. -/
def process_single_reservation {DT : Type} (o : DatetimeOracle DT)
    (reservation : Value) : Except PyErr Processed :=
  match reservation with
  | vMap m =>
    let dt := add_datetime_fields o
      (mapGetD m "r25:reservation_start_dt" vNull)
      (mapGetD m "r25:reservation_end_dt" vNull)
      (mapGetD m "r25:last_mod_dt" vNull)
    match add_location_fields (mapGetD m "r25:space_reservation" vNull) with
    | .ok (locF, locA) =>
      .ok {
        reservation_id := mapGetD m "r25:reservation_id" vNull
        event_type := mapGetD m "r25:event_type_name" vNull
        event_id := extract_event_id m
        reservation_state := mapGetD m "r25:reservation_state_name" vNull
        reservation_id_friendly := mapGetD m "r25:event_locator" vNull
        expected_attendance := mapGetD m "r25:expected_count" vNull
        start := mapGetD m "r25:reservation_start_dt" vNull
        end_ := mapGetD m "r25:reservation_end_dt" vNull
        organization := mapGetD m "r25:organization_name" vNull
        name := combine_event_name_and_title m
        start_timestamp := dt.1
        end_timestamp := dt.2.1
        start_date_friendly := dt.2.2.1
        end_date_friendly := dt.2.2.2.1
        last_updated_friendly := dt.2.2.2.2.1
        last_updated_timestamp := dt.2.2.2.2.2
        location_full := locF
        location_abbr := locA }
    | .error e => .error e
  | _ => .error .attributeError

/-- `_parse_reservation_data`: processes each raw reservation in order,
propagating the first exception. -/
def parse_reservation_data {DT : Type} (o : DatetimeOracle DT) :
    List Value → Except PyErr (List Processed)
  | [] => .ok []
  | r :: rest =>
    match process_single_reservation o r with
    | .ok p =>
      match parse_reservation_data o rest with
      | .ok ps => .ok (p :: ps)
      | .error e => .error e
    | .error e => .error e

/-- `_filter_reservations_by_type`: keeps records whose `event_type`
contains `"BL"` or `"IN"`; the membership test raises `TypeError` when
`event_type` is `None` (`reservation.get("event_type", "")` returns the
stored value, which the normalizer always assigns). -/
def filter_reservations_by_type : List Processed → Except PyErr (List Processed)
  | [] => .ok []
  | r :: rest =>
    match pyInV "BL" r.event_type with
    | .error e => .error e
    | .ok bl =>
      let keep :=
        if bl then .ok true
        else pyInV "IN" r.event_type
      match keep with
      | .error e => .error e
      | .ok k =>
        match filter_reservations_by_type rest with
        | .ok ps => .ok (if k then r :: ps else ps)
        | .error e => .error e

/-- `PAGE_SIZE = 500`, set in `ReservationScraper.__init__`. -/
def PAGE_SIZE : Nat := 500

/-- `if not isinstance(reservations, list): reservations = [reservations]`:
a single reservation is coerced to a one-element list. -/
def coerceToList : Value → List Value
  | vList l => l
  | v => [v]

/-- `_build_reservations_url`: the base query string, plus
`&paginate={key}&page={n}` only when `page > 1 and paginate_key` is truthy
(`paginate_key` is the raw `@paginate_key` value, rendered by the
f-string). -/
def build_reservations_url (base lookback lookahead : String) (page : Int)
    (paginate_key : Value) : String :=
  let url := base ++ "/reservations.xml" ++
    "?start_dt=" ++ lookback ++ "&end_dt=" ++ lookahead ++
    "&paginate&page_size=" ++ toString PAGE_SIZE
  if page > 1 ∧ pyTruthy paginate_key then
    url ++ "&paginate=" ++ pyStr paginate_key ++ "&page=" ++ toString page
  else url

/-- Python `range(a, b)` over integers. -/
def pyRange (a b : Int) : List Int :=
  (List.range (b - a).toNat).map (fun i : Nat => a + (i : Int))

/-- The `for page_num in range(2, page_count + 1)` loop of
`scrape_reservations`: fetch each page, index `"r25:reservation"`
(`KeyError` when absent), coerce a single reservation to a one-element
list, process, extend the accumulator.  Returns the URLs requested by the
loop together with the accumulated result; any failure stops the loop and
propagates. -/
def scrapePagesLoop {DT : Type} (fetch : String → Except PyErr Value)
    (o : DatetimeOracle DT) (base lookback lookahead : String)
    (paginate_key : Value) (pages : List Int) (acc : List Processed) :
    List String × Except PyErr (List Processed) :=
  match pages with
  | [] => ([], .ok acc)
  | page_num :: rest =>
    let url := build_reservations_url base lookback lookahead page_num paginate_key
    match fetch url with
    | .error e => ([url], .error e)
    | .ok response =>
      match pyIndex response "r25:reservation" with
      | .error e => ([url], .error e)
      | .ok reservations =>
        match parse_reservation_data o (coerceToList reservations) with
        | .error e => ([url], .error e)
        | .ok ps =>
          let next :=
            scrapePagesLoop fetch o base lookback lookahead paginate_key rest
              (acc ++ ps)
          (url :: next.1, next.2)

/-- `scrape_reservations`: the full date-range call.  `fetch` stands for
`_make_api_request` (HTTP GET + `xmltodict.parse` + extraction of the
`r25:reservations` envelope; `.error` is the `Exception` it raises).
Returns every URL passed to `fetch`, in order, together with the result. -/
def scrape_reservations {DT : Type} (fetch : String → Except PyErr Value)
    (o : DatetimeOracle DT) (base lookback lookahead : String) :
    List String × Except PyErr (List Processed) :=
  let url := build_reservations_url base lookback lookahead 1 vNull
  match fetch url with
  | .error e => ([url], .error e)
  | .ok response =>
    -- `if not response or "r25:reservation" not in response: return []`
    if ¬ pyTruthy response then ([url], .ok [])
    else
      match pyInV "r25:reservation" response with
      | .error e => ([url], .error e)
      | .ok mem =>
        if ¬ mem then ([url], .ok [])
        else
          match pyIndex response "r25:reservation" with
          | .error e => ([url], .error e)
          | .ok reservations =>
            match parse_reservation_data o (coerceToList reservations) with
            | .error e => ([url], .error e)
            | .ok firstPage =>
              -- page_count = int(response.get("@page_count", "1"))
              match pyGetD response "@page_count" (vStr "1") with
              | .error e => ([url], .error e)
              | .ok pcv =>
                match pyToInt pcv with
                | .error e => ([url], .error e)
                | .ok page_count =>
                  if page_count > 1 then
                    match pyIndex response "@paginate_key" with
                    | .error e => ([url], .error e)
                    | .ok paginate_key =>
                      let next := scrapePagesLoop fetch o base lookback
                        lookahead paginate_key (pyRange 2 (page_count + 1))
                        firstPage
                      (url :: next.1,
                       match next.2 with
                       | .error e => .error e
                       | .ok allRes => filter_reservations_by_type allRes)
                  else
                    ([url], filter_reservations_by_type firstPage)

/-- Python `range(0, stop, step)` for a positive step (the scheduler is
only ever run with a positive `step_size`; `range` raises for step 0 and
walks downward for negative steps, neither of which the claims exercise). -/
def pyRangeStep (stop step : Int) : List Int :=
  (List.range ((stop + step - 1) / step).toNat).map (fun i : Nat => step * (i : Int))

/-- The batch windows of `Scraper.run`: for each `day_offset` in
`range(0, days_ahead, step_size)`, the pair
`(f"+{day_offset}", f"+{day_offset + step_size - 1}")`. -/
def runWindows (days_ahead step_size : Int) : List (String × String) :=
  (pyRangeStep days_ahead step_size).map
    (fun day_offset =>
      ("+" ++ toString day_offset,
       "+" ++ toString (day_offset + step_size - 1)))

/-- `Scraper.run`: iterates the windows, calling `scrape` (the bound
`scrape_reservations` of the inner scraper) on each; any exception from a
window is caught and the loop continues; a successful window adds its
record count to the running total.  Returns the windows attempted, in
order, and the final total. -/
def Scraper_run (scrape : String → String → Except PyErr (List Processed))
    (days_ahead step_size : Int) : List (String × String) × Nat :=
  (runWindows days_ahead step_size).foldl
    (fun acc w =>
      match scrape w.1 w.2 with
      | .ok reservations => (acc.1 ++ [w], acc.2 + reservations.length)
      | .error _ => (acc.1 ++ [w], acc.2))
    ([], 0)

/-! Example inputs used by witnesses and counterexamples. -/

/-- A datetime oracle over `Unit` whose parser rejects every string. -/
def nullOracle : DatetimeOracle Unit :=
  ⟨fun _ => none, fun _ => 0, fun _ => ""⟩

/-- Is the value a string? -/
def isStrValue : Value → Bool
  | vStr _ => true
  | _ => false

/-- The string content of a space's name field (empty default), matching
`space.get(key, "")` on a field known to hold a string. -/
def strFieldD (m : List (String × Value)) (k : String) : String :=
  match mapGetD m k (vStr "") with
  | vStr s => s
  | _ => ""

/-- A processed record whose always-assigned keys are all null and whose
datetime-derived keys are absent; `et` is the `event_type` value and the
two arguments the location fields.  This is exactly what the normalizer
produces from small raw records in the concrete examples below. -/
def blankRec (et : Value) (locF locA : Option Value) : Processed :=
  ⟨vNull, et, vNull, vNull, vNull, vNull, vNull, vNull, vNull, vNull,
   none, none, none, none, none, none, locF, locA⟩

/-- The elements Python iterates over in the sequence branch of
`_add_location_fields` (empty for non-sequences). -/
def spaceItems : Value → List Value
  | vList l => l
  | _ => []

/-- A sequence element over which the loop body of `_add_location_fields`
cannot raise: a mapping whose two name fields are strings (or absent). -/
def spaceListElemOk : Value → Bool
  | vMap mm => isStrValue (mapGetD mm "r25:formal_name" (vStr "")) &&
               isStrValue (mapGetD mm "r25:space_name" (vStr ""))
  | _ => false

/-- `"BL" in v` as a total boolean (meaningful when `v` is not null). -/
def pyInB (s : String) (v : Value) : Bool :=
  match pyInV s v with
  | .ok b => b
  | .error _ => false

/-- An example scrape behaviour: the window starting at `"+7"` raises,
every other window returns one record. -/
def egScrape : String → String → Except PyErr (List Processed) :=
  fun lookback _ =>
    if lookback = "+7" then .error (.exn "boom")
    else .ok [blankRec (vStr "BL-Lecture") (some vNull) (some vNull)]

/-- Base URL used by the concrete pagination examples. -/
def pgBase : String := "http://api.example.edu"

/-- First-page envelope of the example: one reservation, 3 pages, key
`KEY123`. -/
def pgEnv1 : List (String × Value) :=
  [("r25:reservation", vMap [("r25:event_type_name", vStr "BL-Lecture")]),
   ("@page_count", vStr "3"),
   ("@paginate_key", vStr "KEY123")]

/-- Envelope of the example's later pages: an empty reservation list. -/
def pgEnvRest : Value := vMap [("r25:reservation", vList [])]

/-- Example fetch oracle: serves pages 1–3 of the example query and fails
on anything else. -/
def pgFetch : String → Except PyErr Value := fun u =>
  if u = build_reservations_url pgBase "+0" "+6" 1 vNull then
    .ok (vMap pgEnv1)
  else if u = build_reservations_url pgBase "+0" "+6" 2 (vStr "KEY123") then
    .ok pgEnvRest
  else if u = build_reservations_url pgBase "+0" "+6" 3 (vStr "KEY123") then
    .ok pgEnvRest
  else .error (.exn "unexpected request")

/-- C1 counterexample: a first page whose envelope is missing the expected
records field does NOT abort the call — `scrape_reservations` returns an
empty list with no error (after a single fetch), despite the envelope
advertising 3 pages. -/
def noRecFetch : String → Except PyErr Value := fun u =>
  if u = build_reservations_url pgBase "+0" "+6" 1 vNull then
    .ok (vMap [("@page_count", vStr "3"), ("@paginate_key", vStr "K")])
  else .error (.exn "unreachable")

/-- A fetch oracle that always fails. -/
def failFetch : String → Except PyErr Value :=
  fun _ => .error (.exn "connection refused")

/-! ### Helper lemmas -/

lemma mapLookup_any (m : List (String × Value)) (k : String) :
    (m.any (fun p => p.1 = k)) = (mapLookup m k).isSome := by
  induction m with
  | nil => rfl
  | cons p rest ih =>
    by_cases h : p.1 = k
    · simp [mapLookup, ← h]
    · simpa [mapLookup, h] using ih

/-! ### C9: derivation of the `name` field -/

/-- C9: for every raw reservation whose event-name and event-title fields
are each either absent (null) or a present (non-empty) string, the derived
`name` is `"name - title"` when both are present, the lone present field
when only one is, and null when both are absent. -/
theorem combine_name_cases (m : List (String × Value)) :
    (∀ ns ts : String, ns ≠ "" → ts ≠ "" →
       mapGetD m "r25:event_name" vNull = vStr ns →
       mapGetD m "r25:event_title" vNull = vStr ts →
       combine_event_name_and_title m = vStr (ns ++ " - " ++ ts)) ∧
    (∀ ns : String, ns ≠ "" →
       mapGetD m "r25:event_name" vNull = vStr ns →
       mapGetD m "r25:event_title" vNull = vNull →
       combine_event_name_and_title m = vStr ns) ∧
    (∀ ts : String, ts ≠ "" →
       mapGetD m "r25:event_name" vNull = vNull →
       mapGetD m "r25:event_title" vNull = vStr ts →
       combine_event_name_and_title m = vStr ts) ∧
    (mapGetD m "r25:event_name" vNull = vNull →
       mapGetD m "r25:event_title" vNull = vNull →
       combine_event_name_and_title m = vNull) := by
  refine ⟨?_, ?_, ?_, ?_⟩
  · intro ns ts hns hts hn ht
    simp [combine_event_name_and_title, hn, ht, pyTruthy, pyStr, hns, hts]
  · intro ns hns hn ht
    simp [combine_event_name_and_title, hn, ht, pyTruthy, pyStr, hns]
  · intro ts hts hn ht
    simp [combine_event_name_and_title, hn, ht, pyTruthy, pyStr, hts]
  · intro hn ht
    simp [combine_event_name_and_title, hn, ht, pyTruthy]

/-- C9 witness: the four cases at concrete records. -/
theorem combine_name_cases_witness :
    combine_event_name_and_title
      [("r25:event_name", vStr "A"), ("r25:event_title", vStr "B")] =
      vStr "A - B" ∧
    combine_event_name_and_title [("r25:event_name", vStr "A")] = vStr "A" ∧
    combine_event_name_and_title [("r25:event_title", vStr "B")] = vStr "B" ∧
    combine_event_name_and_title [] = vNull :=
  ⟨(combine_name_cases _).1 "A" "B" (by decide) (by decide) rfl rfl,
   (combine_name_cases _).2.1 "A" (by decide) rfl rfl,
   (combine_name_cases _).2.2.1 "B" (by decide) rfl rfl,
   (combine_name_cases _).2.2.2 rfl rfl⟩

/-! ### C3: batch windows -/

/-- C3 counterexample: with `daysAhead = 10`, `stepSize = 7` the final
window is `("+7", "+13")`, not the truncated `("+7", "+9")` the claim
requires (truncation at `daysAhead - 1 = 9`). -/
theorem runWindows_no_truncation_cex :
    runWindows 10 7 = [("+0", "+6"), ("+7", "+13")] ∧
    runWindows 10 7 ≠ [("+0", "+6"), ("+7", "+9")] := by
  constructor
  · rfl
  · decide

/-- C3 amended: for a positive step, `Scraper.run` partitions the horizon
into consecutive `stepSize`-wide windows `("+k*s", "+(k*s+s-1)")` for
`k < ⌈daysAhead / stepSize⌉`; the final window is never shortened — its
upper bound is `k*s + s - 1` even when that exceeds `daysAhead - 1`.  The
`daysAhead=14, stepSize=7` scenario does produce exactly
`("+0","+6"), ("+7","+13")`. -/
theorem runWindows_spec (d s : Int) (hs : 0 < s) :
    (runWindows d s).length = ((d + s - 1) / s).toNat ∧
    (∀ (k : Nat) (hk : k < (runWindows d s).length),
       (runWindows d s).get ⟨k, hk⟩ =
         ("+" ++ toString ((k : Int) * s),
          "+" ++ toString ((k : Int) * s + s - 1))) ∧
    runWindows 14 7 = [("+0", "+6"), ("+7", "+13")] := by
  refine ⟨?_, ?_, by decide⟩
  · simp only [runWindows, pyRangeStep, List.length_map, List.length_range]
  · intro k hk
    rw [List.get_eq_getElem]
    simp only [runWindows, pyRangeStep] at hk ⊢
    rw [List.getElem_map, List.getElem_map, List.getElem_range, mul_comm]

/-- C3 amended witness: the theorem at `daysAhead = 10`, `stepSize = 7`:
two windows, the second ending at `"+13"`. -/
theorem runWindows_spec_witness :
    (runWindows 10 7).length = 2 ∧
    runWindows 14 7 = [("+0", "+6"), ("+7", "+13")] :=
  ⟨(runWindows_spec 10 7 (by decide)).1, (runWindows_spec 10 7 (by decide)).2.2⟩

/-! ### C2: location fields -/

/-- C2 counterexample: a single space-reservation mapping whose formal
name is `"Hall A,B"` keeps its comma — the single-mapping branch does not
comma-strip (and commas are stripped only in the sequence branch). -/
theorem add_location_single_mapping_cex :
    add_location_fields
      (vMap [("r25:formal_name", vStr "Hall A,B"),
             ("r25:space_name", vStr "HA,B")]) =
      .ok (some (vStr "Hall A,B"), some (vStr "HA,B")) ∧
    add_location_fields
      (vList [vMap [("r25:formal_name", vStr "Hall A,B"),
                    ("r25:space_name", vStr "HA,B")]]) =
      .ok (some (vStr "Hall AB"), some (vStr "HAB")) ∧
    ("Hall A,B" : String) ≠ "Hall AB" :=
  ⟨rfl, rfl, by decide⟩

lemma collectSpaceNames_of_strings (spaces : List (List (String × Value)))
    (h : ∀ s ∈ spaces, isStrValue (mapGetD s "r25:formal_name" (vStr "")) ∧
         isStrValue (mapGetD s "r25:space_name" (vStr ""))) :
    collectSpaceNames (spaces.map vMap) =
      .ok ((spaces.map (fun s => pyStripCommas (strFieldD s "r25:formal_name"))).filter
             (fun x => x ≠ ""),
           (spaces.map (fun s => pyStripCommas (strFieldD s "r25:space_name"))).filter
             (fun x => x ≠ "")) := by
  induction spaces with
  | nil => rfl
  | cons s rest ih =>
    obtain ⟨hf, ha⟩ := h s (List.mem_cons_self s rest)
    have hrest := ih (fun x hx => h x (List.mem_cons_of_mem s hx))
    cases hfm : mapGetD s "r25:formal_name" (vStr "") with
    | vStr fn =>
      cases ham : mapGetD s "r25:space_name" (vStr "") with
      | vStr an =>
        simp only [List.map_cons, collectSpaceNames, hfm, ham, hrest,
          List.filter_cons, strFieldD]
        by_cases h1 : pyStripCommas fn = "" <;>
          by_cases h2 : pyStripCommas an = "" <;>
            simp [h1, h2]
      | vNull => rw [ham] at ha; simp [isStrValue] at ha
      | vList l => rw [ham] at ha; simp [isStrValue] at ha
      | vMap mm => rw [ham] at ha; simp [isStrValue] at ha
    | vNull => rw [hfm] at hf; simp [isStrValue] at hf
    | vList l => rw [hfm] at hf; simp [isStrValue] at hf
    | vMap mm => rw [hfm] at hf; simp [isStrValue] at hf

/-- C2 amended: an absent or empty space-reservation field yields the
sentinel for both outputs; a single mapping yields its two name fields
verbatim — commas are NOT stripped on this path — with the sentinel as
per-field default; a sequence of mappings with string (or absent) name
fields yields, for each output, the comma-stripped names that are
non-empty after stripping, joined with `", "` in input encounter order. -/
theorem add_location_fields_spec :
    (∀ v : Value, ¬ pyTruthy v →
       add_location_fields v =
         .ok (some (vStr "Not Specified"), some (vStr "Not Specified"))) ∧
    (∀ m : List (String × Value), m ≠ [] →
       add_location_fields (vMap m) =
         .ok (some (mapGetD m "r25:formal_name" (vStr "Not Specified")),
              some (mapGetD m "r25:space_name" (vStr "Not Specified")))) ∧
    (∀ spaces : List (List (String × Value)), spaces ≠ [] →
       (∀ s ∈ spaces, isStrValue (mapGetD s "r25:formal_name" (vStr "")) ∧
          isStrValue (mapGetD s "r25:space_name" (vStr ""))) →
       add_location_fields (vList (spaces.map vMap)) =
         .ok (some (vStr (String.intercalate ", "
                ((spaces.map (fun s => pyStripCommas (strFieldD s "r25:formal_name"))).filter
                  (fun x => x ≠ "")))),
              some (vStr (String.intercalate ", "
                ((spaces.map (fun s => pyStripCommas (strFieldD s "r25:space_name"))).filter
                  (fun x => x ≠ "")))))) := by
  refine ⟨?_, ?_, ?_⟩
  · intro v hv
    simp [add_location_fields, hv]
  · intro m hm
    have : pyTruthy (vMap m) = true := by
      simp [pyTruthy, hm]
    simp [add_location_fields, this]
  · intro spaces hne h
    have htr : pyTruthy (vList (spaces.map vMap)) = true := by
      simp [pyTruthy, hne]
    simp [add_location_fields, htr, collectSpaceNames_of_strings spaces h]

/-- C2 amended witness: the three branches at concrete inputs — absent
field, single mapping (comma kept), and a two-element sequence (commas
stripped, joined in order). -/
theorem add_location_fields_spec_witness :
    add_location_fields vNull =
      .ok (some (vStr "Not Specified"), some (vStr "Not Specified")) ∧
    add_location_fields (vMap [("r25:formal_name", vStr "A,B")]) =
      .ok (some (vStr "A,B"), some (vStr "Not Specified")) ∧
    add_location_fields
      (vList [vMap [("r25:formal_name", vStr "A,1"), ("r25:space_name", vStr "a")],
              vMap [("r25:formal_name", vStr "B"), ("r25:space_name", vStr "b")]]) =
      .ok (some (vStr "A1, B"), some (vStr "a, b")) := by
  refine ⟨add_location_fields_spec.1 vNull (by decide), ?_, ?_⟩
  · have := add_location_fields_spec.2.1 [("r25:formal_name", vStr "A,B")]
      (by simp)
    rw [this]; rfl
  · have := add_location_fields_spec.2.2
      [[("r25:formal_name", vStr "A,1"), ("r25:space_name", vStr "a")],
       [("r25:formal_name", vStr "B"), ("r25:space_name", vStr "b")]]
      (by simp) (by decide)
    rw [show (vList [vMap [("r25:formal_name", vStr "A,1"), ("r25:space_name", vStr "a")],
          vMap [("r25:formal_name", vStr "B"), ("r25:space_name", vStr "b")]]) =
        vList (List.map vMap
          [[("r25:formal_name", vStr "A,1"), ("r25:space_name", vStr "a")],
           [("r25:formal_name", vStr "B"), ("r25:space_name", vStr "b")]]) from rfl,
      this]
    rfl

/-! ### Inversion lemmas for `_process_single_reservation` -/

lemma process_ok_fields {DT : Type} (o : DatetimeOracle DT)
    (m : List (String × Value)) (r : Processed)
    (hr : process_single_reservation o (vMap m) = .ok r) :
    add_location_fields (mapGetD m "r25:space_reservation" vNull) =
      .ok (r.location_full, r.location_abbr) ∧
    r.start_timestamp =
      (add_datetime_fields o (mapGetD m "r25:reservation_start_dt" vNull)
        (mapGetD m "r25:reservation_end_dt" vNull)
        (mapGetD m "r25:last_mod_dt" vNull)).1 ∧
    r.end_timestamp =
      (add_datetime_fields o (mapGetD m "r25:reservation_start_dt" vNull)
        (mapGetD m "r25:reservation_end_dt" vNull)
        (mapGetD m "r25:last_mod_dt" vNull)).2.1 ∧
    r.start_date_friendly =
      (add_datetime_fields o (mapGetD m "r25:reservation_start_dt" vNull)
        (mapGetD m "r25:reservation_end_dt" vNull)
        (mapGetD m "r25:last_mod_dt" vNull)).2.2.1 ∧
    r.end_date_friendly =
      (add_datetime_fields o (mapGetD m "r25:reservation_start_dt" vNull)
        (mapGetD m "r25:reservation_end_dt" vNull)
        (mapGetD m "r25:last_mod_dt" vNull)).2.2.2.1 := by
  cases hloc : add_location_fields (mapGetD m "r25:space_reservation" vNull) with
  | error e =>
    simp only [process_single_reservation, hloc] at hr
    exact Except.noConfusion hr
  | ok p =>
    obtain ⟨locF, locA⟩ := p
    simp only [process_single_reservation, hloc] at hr
    cases hr
    exact ⟨rfl, rfl, rfl, rfl, rfl⟩

lemma process_error_from_location {DT : Type} (o : DatetimeOracle DT)
    (m : List (String × Value)) (e : PyErr)
    (hr : process_single_reservation o (vMap m) = .error e) :
    add_location_fields (mapGetD m "r25:space_reservation" vNull) = .error e := by
  cases hloc : add_location_fields (mapGetD m "r25:space_reservation" vNull) with
  | error e' =>
    simp only [process_single_reservation, hloc] at hr
    cases hr
    rfl
  | ok p =>
    obtain ⟨locF, locA⟩ := p
    simp only [process_single_reservation, hloc] at hr
    exact Except.noConfusion hr

lemma add_location_fields_shape (v : Value) (locF locA : Option Value)
    (h : add_location_fields v = .ok (locF, locA)) :
    (¬ pyTruthy v →
       locF = some (vStr "Not Specified") ∧ locA = some (vStr "Not Specified")) ∧
    (∀ mm, v = vMap mm → locF.isSome ∧ locA.isSome) ∧
    (∀ l, v = vList l → locF.isSome ∧ locA.isSome) ∧
    (∀ s, v = vStr s → s ≠ "" → locF = none ∧ locA = none) := by
  refine ⟨?_, ?_, ?_, ?_⟩
  · intro hf
    have hf' : pyTruthy v = false := by
      cases hpt : pyTruthy v
      · rfl
      · exact absurd hpt hf
    rw [add_location_fields.eq_def, hf', if_pos (by simp : ¬ false = true)] at h
    injection h with h1
    injection h1 with h2 h3
    exact ⟨h2.symm, h3.symm⟩
  · rintro mm rfl
    by_cases h0 : mm = []
    · subst h0
      have hcomp : add_location_fields (vMap []) =
          .ok (some (vStr "Not Specified"), some (vStr "Not Specified")) := rfl
      rw [hcomp] at h
      injection h with h1
      injection h1 with h2 h3
      rw [← h2, ← h3]
      exact ⟨rfl, rfl⟩
    · have htr : pyTruthy (vMap mm) = true := by simp [pyTruthy, h0]
      have hcomp : add_location_fields (vMap mm) =
          .ok (some (mapGetD mm "r25:formal_name" (vStr "Not Specified")),
               some (mapGetD mm "r25:space_name" (vStr "Not Specified"))) := by
        rw [add_location_fields.eq_def, htr, if_neg (by simp)]
      rw [hcomp] at h
      injection h with h1
      injection h1 with h2 h3
      rw [← h2, ← h3]
      exact ⟨rfl, rfl⟩
  · rintro l rfl
    by_cases h0 : l = []
    · subst h0
      have hcomp : add_location_fields (vList []) =
          .ok (some (vStr "Not Specified"), some (vStr "Not Specified")) := rfl
      rw [hcomp] at h
      injection h with h1
      injection h1 with h2 h3
      rw [← h2, ← h3]
      exact ⟨rfl, rfl⟩
    · have htr : pyTruthy (vList l) = true := by simp [pyTruthy, h0]
      have hcomp : add_location_fields (vList l) =
          (match collectSpaceNames l with
           | .ok (fns, ans) =>
             .ok (some (vStr (String.intercalate ", " fns)),
                  some (vStr (String.intercalate ", " ans)))
           | .error e => .error e) := by
        rw [add_location_fields.eq_def, htr, if_neg (by simp)]
      rw [hcomp] at h
      cases hc : collectSpaceNames l with
      | error e =>
        rw [hc] at h
        exact Except.noConfusion h
      | ok p =>
        obtain ⟨fns, ans⟩ := p
        rw [hc] at h
        injection h with h1
        injection h1 with h2 h3
        rw [← h2, ← h3]
        exact ⟨rfl, rfl⟩
  · rintro s rfl hs
    have htr : pyTruthy (vStr s) = true := by simp [pyTruthy, hs]
    have hcomp : add_location_fields (vStr s) = .ok (none, none) := by
      rw [add_location_fields.eq_def, htr, if_neg (by simp)]
    rw [hcomp] at h
    injection h with h1
    injection h1 with h2 h3
    exact ⟨h2.symm, h3.symm⟩

/-! ### C6: presence of the location fields -/

/-- C6 counterexample: a raw record whose `r25:space_reservation` value is
a truthy scalar string hits no branch of `_add_location_fields` — the
normalizer returns a record with BOTH location keys missing. -/
theorem process_scalar_space_missing_cex :
    Except.map (fun r => (r.location_full, r.location_abbr))
      (process_single_reservation nullOracle
        (vMap [("r25:space_reservation", vStr "TBA")])) =
      .ok (none, none) := rfl

/-- C6 amended: for every raw record whose space-reservation field is
falsy (both locations get the sentinel), a mapping, or a sequence, the
produced record has both location fields present; but when that field is
a truthy scalar string, both fields are missing from the output. -/
theorem process_location_presence {DT : Type} (o : DatetimeOracle DT)
    (m : List (String × Value)) (r : Processed)
    (hr : process_single_reservation o (vMap m) = .ok r) :
    (¬ pyTruthy (mapGetD m "r25:space_reservation" vNull) →
       r.location_full = some (vStr "Not Specified") ∧
       r.location_abbr = some (vStr "Not Specified")) ∧
    (∀ mm, mapGetD m "r25:space_reservation" vNull = vMap mm →
       r.location_full.isSome ∧ r.location_abbr.isSome) ∧
    (∀ l, mapGetD m "r25:space_reservation" vNull = vList l →
       r.location_full.isSome ∧ r.location_abbr.isSome) ∧
    (∀ s, mapGetD m "r25:space_reservation" vNull = vStr s → s ≠ "" →
       r.location_full = none ∧ r.location_abbr = none) :=
  add_location_fields_shape _ _ _ (process_ok_fields o m r hr).1

/-- C6 amended witness: the empty raw record (no space attached) yields
both sentinels. -/
theorem process_location_presence_witness :
    (blankRec vNull (some (vStr "Not Specified"))
        (some (vStr "Not Specified"))).location_full =
      some (vStr "Not Specified") ∧
    (blankRec vNull (some (vStr "Not Specified"))
        (some (vStr "Not Specified"))).location_abbr =
      some (vStr "Not Specified") :=
  (process_location_presence nullOracle []
    (blankRec vNull (some (vStr "Not Specified")) (some (vStr "Not Specified")))
    rfl).1 (by decide)

/-! ### C5: totality of the normalizer -/

/-- C5 counterexample: a raw record whose space-reservation sequence holds
a mapping with a null formal name (an empty `<r25:formal_name/>` element)
makes the normalizer raise `AttributeError` (`None.replace`), so
`_process_single_reservation` is not total. -/
theorem process_raises_cex :
    process_single_reservation nullOracle
      (vMap [("r25:space_reservation",
              vList [vMap [("r25:formal_name", vNull)]])]) =
      .error .attributeError ∧
    process_single_reservation nullOracle
      (vMap [("r25:space_reservation", vList [vStr "x"])]) =
      .error .attributeError :=
  ⟨rfl, rfl⟩

lemma collectSpaceNames_ok (l : List Value)
    (h : ∀ x ∈ l, spaceListElemOk x) :
    ∃ p, collectSpaceNames l = .ok p := by
  induction l with
  | nil => exact ⟨([], []), rfl⟩
  | cons x rest ih =>
    have hx := h x (List.mem_cons_self x rest)
    obtain ⟨p, hp⟩ := ih (fun y hy => h y (List.mem_cons_of_mem x hy))
    obtain ⟨fns, ans⟩ := p
    cases x with
    | vMap mm =>
      simp only [spaceListElemOk, Bool.and_eq_true] at hx
      obtain ⟨hf, ha⟩ := hx
      cases hfm : mapGetD mm "r25:formal_name" (vStr "") with
      | vStr fn =>
        cases ham : mapGetD mm "r25:space_name" (vStr "") with
        | vStr an =>
          refine ⟨((if pyStripCommas fn ≠ "" then pyStripCommas fn :: fns else fns),
                   (if pyStripCommas an ≠ "" then pyStripCommas an :: ans else ans)), ?_⟩
          simp only [collectSpaceNames, hfm, ham, hp]
        | vNull => rw [ham] at ha; simp [isStrValue] at ha
        | vList l2 => rw [ham] at ha; simp [isStrValue] at ha
        | vMap m2 => rw [ham] at ha; simp [isStrValue] at ha
      | vNull => rw [hfm] at hf; simp [isStrValue] at hf
      | vList l2 => rw [hfm] at hf; simp [isStrValue] at hf
      | vMap m2 => rw [hfm] at hf; simp [isStrValue] at hf
    | vNull => simp [spaceListElemOk] at hx
    | vStr s => simp [spaceListElemOk] at hx
    | vList l2 => simp [spaceListElemOk] at hx

lemma add_location_fields_ok (v : Value)
    (hv : ∀ x ∈ spaceItems v, spaceListElemOk x) :
    ∃ p, add_location_fields v = .ok p := by
  cases v with
  | vNull => exact ⟨_, rfl⟩
  | vStr s =>
    by_cases hs : s = ""
    · subst hs; exact ⟨_, rfl⟩
    · have htr : pyTruthy (vStr s) = true := by simp [pyTruthy, hs]
      exact ⟨(none, none), by rw [add_location_fields.eq_def, htr, if_neg (by simp)]⟩
  | vMap mm =>
    by_cases h0 : mm = []
    · subst h0; exact ⟨_, rfl⟩
    · have htr : pyTruthy (vMap mm) = true := by simp [pyTruthy, h0]
      exact ⟨_, by rw [add_location_fields.eq_def, htr, if_neg (by simp)]⟩
  | vList l =>
    by_cases h0 : l = []
    · subst h0; exact ⟨_, rfl⟩
    · have htr : pyTruthy (vList l) = true := by simp [pyTruthy, h0]
      obtain ⟨⟨fns, ans⟩, hc⟩ := collectSpaceNames_ok l (by simpa [spaceItems] using hv)
      have hcomp : add_location_fields (vList l) =
          (match collectSpaceNames l with
           | .ok (fns, ans) =>
             .ok (some (vStr (String.intercalate ", " fns)),
                  some (vStr (String.intercalate ", " ans)))
           | .error e => .error e) := by
        rw [add_location_fields.eq_def, htr, if_neg (by simp)]
      exact ⟨_, by rw [hcomp, hc]⟩

/-- C5 amended: the normalizer never raises on a raw record provided that,
when its space-reservation field is a sequence, every element is a mapping
whose name fields are strings (or absent); in particular malformed
datetime fields alone never make it fail.  Without that proviso it can
raise (see the counterexample): totality is conditional, not universal. -/
theorem process_total_amended {DT : Type} (o : DatetimeOracle DT)
    (m : List (String × Value))
    (hspace : ∀ x ∈ spaceItems (mapGetD m "r25:space_reservation" vNull),
       spaceListElemOk x) :
    ∃ r, process_single_reservation o (vMap m) = .ok r := by
  obtain ⟨⟨locF, locA⟩, hok⟩ := add_location_fields_ok _ hspace
  simp only [process_single_reservation, hok]
  exact ⟨_, rfl⟩

/-- C5 amended witness: a record with a well-shaped two-space sequence is
normalized without an exception, even though its datetime fields are
unparseable. -/
theorem process_total_amended_witness :
    ∃ r, process_single_reservation nullOracle
      (vMap [("r25:reservation_start_dt", vStr "garbage"),
             ("r25:space_reservation",
              vList [vMap [("r25:formal_name", vStr "Hall A"),
                           ("r25:space_name", vStr "HA")],
                     vMap [("r25:formal_name", vStr "Hall B")]])]) = .ok r :=
  process_total_amended nullOracle _ (by decide)

/-! ### C7: all-or-nothing datetime derivation -/

lemma add_datetime_fields_fail {DT : Type} (o : DatetimeOracle DT)
    (startv endv lm : Value)
    (h : parseDatetimeValue o startv = none ∨ parseDatetimeValue o endv = none) :
    add_datetime_fields o startv endv lm = (none, none, none, none, none, none) := by
  rcases h with h | h
  · cases hen : parseDatetimeValue o endv with
    | none => rw [add_datetime_fields.eq_def, h, hen]
    | some en => rw [add_datetime_fields.eq_def, h, hen]
  · cases hst : parseDatetimeValue o startv with
    | none => rw [add_datetime_fields.eq_def, hst, h]
    | some st => rw [add_datetime_fields.eq_def, hst, h]

/-- C7: when the start or end field of a raw record fails to parse as
ISO-8601 (including being absent or non-string), the produced record has
all four derived datetime fields absent — never a subset, never a default
value; the record is still produced unless the (independent) location
block itself raises, and its location fields are exactly the ones
`_add_location_fields` computes from the space-reservation field alone. -/
theorem datetime_all_or_nothing {DT : Type} (o : DatetimeOracle DT)
    (m : List (String × Value))
    (hfail : parseDatetimeValue o (mapGetD m "r25:reservation_start_dt" vNull) = none ∨
             parseDatetimeValue o (mapGetD m "r25:reservation_end_dt" vNull) = none) :
    (∀ r, process_single_reservation o (vMap m) = .ok r →
       r.start_timestamp = none ∧ r.end_timestamp = none ∧
       r.start_date_friendly = none ∧ r.end_date_friendly = none ∧
       add_location_fields (mapGetD m "r25:space_reservation" vNull) =
         .ok (r.location_full, r.location_abbr)) ∧
    (∀ e, process_single_reservation o (vMap m) = .error e →
       add_location_fields (mapGetD m "r25:space_reservation" vNull) = .error e) := by
  constructor
  · intro r hr
    obtain ⟨hloc, h1, h2, h3, h4⟩ := process_ok_fields o m r hr
    rw [add_datetime_fields_fail o _ _ _ hfail] at h1 h2 h3 h4
    exact ⟨h1, h2, h3, h4, hloc⟩
  · exact process_error_from_location o m

/-- C7 witness: a record whose start field is garbage still comes out,
with every derived datetime field absent and the sentinel locations. -/
theorem datetime_all_or_nothing_witness :
    (blankRec vNull (some (vStr "Not Specified"))
        (some (vStr "Not Specified"))).start_timestamp = none ∧
    (blankRec vNull (some (vStr "Not Specified"))
        (some (vStr "Not Specified"))).end_timestamp = none ∧
    (blankRec vNull (some (vStr "Not Specified"))
        (some (vStr "Not Specified"))).start_date_friendly = none ∧
    (blankRec vNull (some (vStr "Not Specified"))
        (some (vStr "Not Specified"))).end_date_friendly = none ∧
    add_location_fields (mapGetD [] "r25:space_reservation" vNull) =
      .ok ((blankRec vNull (some (vStr "Not Specified"))
              (some (vStr "Not Specified"))).location_full,
           (blankRec vNull (some (vStr "Not Specified"))
              (some (vStr "Not Specified"))).location_abbr) :=
  (datetime_all_or_nothing nullOracle [] (Or.inl rfl)).1
    (blankRec vNull (some (vStr "Not Specified")) (some (vStr "Not Specified")))
    rfl

/-! ### C10: the event-type filter -/

/-- C10 counterexample/support: a normalized record with null `event_type`
makes the filter raise `TypeError` (first conjunct, the claim's main
assertion, using a record the normalizer itself produces from a raw record
lacking the event-type field — third conjunct); but the filter is NOT
total only over string `event_type`s: it also runs without raising on a
sequence-valued `event_type` (second conjunct), refuting the "only"
clause. -/
theorem filter_typeerror_cex :
    filter_reservations_by_type [blankRec vNull none none] = .error .typeError ∧
    filter_reservations_by_type [blankRec (vList []) none none] = .ok [] ∧
    Except.map Processed.event_type
      (process_single_reservation nullOracle (vMap [])) = .ok vNull :=
  ⟨rfl, rfl, rfl⟩

lemma pyInV_ok_of_ne_null (s : String) (v : Value) (h : v ≠ vNull) :
    ∃ b, pyInV s v = .ok b := by
  cases v with
  | vNull => exact absurd rfl h
  | vStr t => exact ⟨_, rfl⟩
  | vList l => exact ⟨_, rfl⟩
  | vMap m => exact ⟨_, rfl⟩

lemma filter_cons_of_ne_null (r : Processed) (rest : List Processed)
    (hn : r.event_type ≠ vNull) :
    filter_reservations_by_type (r :: rest) =
      (match filter_reservations_by_type rest with
       | .ok ps =>
         .ok (if pyInB "BL" r.event_type || pyInB "IN" r.event_type then
                r :: ps else ps)
       | .error e => .error e) := by
  obtain ⟨b1, hb1⟩ := pyInV_ok_of_ne_null "BL" r.event_type hn
  obtain ⟨b2, hb2⟩ := pyInV_ok_of_ne_null "IN" r.event_type hn
  have hB1 : pyInB "BL" r.event_type = b1 := by simp [pyInB, hb1]
  have hB2 : pyInB "IN" r.event_type = b2 := by simp [pyInB, hb2]
  cases b1 with
  | true =>
    simp only [filter_reservations_by_type, hb1, hB1, if_pos rfl,
      Bool.true_or]
    simp
  | false =>
    simp only [filter_reservations_by_type, hb1, hb2, hB1, hB2,
      Bool.false_or]
    simp

/-- C10 amended: the filter raises exactly on null `event_type`: it fails
(with `TypeError`, the only error it can produce) if and only if some
record in the list has a null `event_type` — so it is total precisely over
lists of records with non-null `event_type`, not only over strings. -/
theorem filter_total_iff (rs : List Processed) :
    (filter_reservations_by_type rs = .error .typeError ↔
       ∃ r ∈ rs, r.event_type = vNull) ∧
    (∀ e, filter_reservations_by_type rs = .error e → e = .typeError) := by
  induction rs with
  | nil =>
    refine ⟨⟨fun h => Except.noConfusion h, ?_⟩, fun e he => Except.noConfusion he⟩
    rintro ⟨r, hr, _⟩
    exact absurd hr (List.not_mem_nil r)
  | cons r rest ih =>
    by_cases hn : r.event_type = vNull
    · have hcomp : filter_reservations_by_type (r :: rest) = .error .typeError := by
        simp only [filter_reservations_by_type, hn, pyInV]
      rw [hcomp]
      refine ⟨⟨fun _ => ⟨r, List.mem_cons_self r rest, hn⟩, fun _ => rfl⟩, ?_⟩
      intro e he
      injection he with h
      exact h.symm
    · rw [filter_cons_of_ne_null r rest hn]
      cases hres : filter_reservations_by_type rest with
      | ok ps =>
        refine ⟨⟨fun h => Except.noConfusion h, ?_⟩, fun e he => Except.noConfusion he⟩
        rintro ⟨r', hr', hnull⟩
        rcases List.mem_cons.mp hr' with rfl | hr'
        · exact absurd hnull hn
        · have := ih.1.mpr ⟨r', hr', hnull⟩
          rw [hres] at this
          exact Except.noConfusion this
      | error e0 =>
        have he0 : e0 = .typeError := ih.2 e0 hres
        subst he0
        have hrest_ex := ih.1.mp hres
        refine ⟨⟨fun _ => ?_, fun _ => rfl⟩, ?_⟩
        · obtain ⟨r', h1, h2⟩ := hrest_ex
          exact ⟨r', List.mem_cons_of_mem r h1, h2⟩
        · intro e he
          injection he with h
          exact h.symm

/-- C10 amended witness: the filter raises `TypeError` on a singleton list
whose record has null `event_type`. -/
theorem filter_total_iff_witness :
    filter_reservations_by_type [blankRec vNull (some vNull) (some vNull)] =
      .error .typeError :=
  (filter_total_iff [blankRec vNull (some vNull) (some vNull)]).1.mpr
    ⟨blankRec vNull (some vNull) (some vNull),
     List.mem_singleton.mpr rfl, rfl⟩

/-! ### C8: batch scheduler resilience -/

lemma Scraper_run_foldl (scrape : String → String → Except PyErr (List Processed))
    (ws : List (String × String)) (acc : List (String × String) × Nat) :
    ws.foldl
      (fun acc w =>
        match scrape w.1 w.2 with
        | .ok reservations => (acc.1 ++ [w], acc.2 + reservations.length)
        | .error _ => (acc.1 ++ [w], acc.2)) acc =
      (acc.1 ++ ws,
       acc.2 + (ws.map (fun w =>
         match scrape w.1 w.2 with
         | .ok reservations => reservations.length
         | .error _ => 0)).sum) := by
  induction ws generalizing acc with
  | nil => simp
  | cons w rest ih =>
    cases hw : scrape w.1 w.2 with
    | ok l =>
      simp only [List.foldl_cons, hw, ih, List.map_cons, List.sum_cons]
      simp [List.append_assoc]
      omega
    | error e =>
      simp only [List.foldl_cons, hw, ih, List.map_cons, List.sum_cons]
      simp [List.append_assoc]

/-- C8: for every per-window scrape behaviour, `Scraper.run` attempts
every window of the horizon in order — an error in one window is caught
and does not stop the remaining windows — and the reported total is
exactly the sum of the record counts of the successful windows (a failed
window contributes 0). -/
theorem Scraper_run_resilient
    (scrape : String → String → Except PyErr (List Processed))
    (d s : Int) (hs : 0 < s) :
    (Scraper_run scrape d s).1 = runWindows d s ∧
    (Scraper_run scrape d s).2 =
      ((runWindows d s).map (fun w =>
        match scrape w.1 w.2 with
        | .ok reservations => reservations.length
        | .error _ => 0)).sum := by
  unfold Scraper_run
  rw [Scraper_run_foldl scrape (runWindows d s) ([], 0)]
  simp

/-- C8 witness: three windows, the middle one failing; windows 1 and 3
still contribute, total is the sum over successful windows = 2. -/
theorem Scraper_run_resilient_witness :
    (0 : Int) < 7 ∧
    (Scraper_run egScrape 21 7).1 = runWindows 21 7 ∧
    (Scraper_run egScrape 21 7).2 =
      ((runWindows 21 7).map (fun w =>
        match egScrape w.1 w.2 with
        | .ok reservations => reservations.length
        | .error _ => 0)).sum ∧
    (Scraper_run egScrape 21 7).2 = 2 ∧
    runWindows 21 7 = [("+0", "+6"), ("+7", "+13"), ("+14", "+20")] :=
  ⟨by decide, (Scraper_run_resilient egScrape 21 7 (by decide)).1,
   (Scraper_run_resilient egScrape 21 7 (by decide)).2, rfl, rfl⟩

/-! ### Pagination driver lemmas (shared by C1 and C4) -/

lemma pyIndex_of_some (m : List (String × Value)) (k : String) (v : Value)
    (h : mapLookup m k = some v) : pyIndex (vMap m) k = .ok v := by
  simp [pyIndex, h]

lemma pyIndex_of_none (m : List (String × Value)) (k : String)
    (h : mapLookup m k = none) : pyIndex (vMap m) k = .error (.keyError k) := by
  simp [pyIndex, h]

/-- Unfolding of `scrape_reservations` on a well-formed first page whose
`page_count` exceeds 1: the call fetches page 1, then runs the page loop
with the captured `@paginate_key`, and filters the accumulated records
(or propagates the loop's error). -/
lemma scrape_unfold_good {DT : Type} (fetch : String → Except PyErr Value)
    (o : DatetimeOracle DT) (base lb la : String)
    (m : List (String × Value)) (rv : Value) (firstPage : List Processed)
    (n : Int) (pk : Value)
    (h1 : fetch (build_reservations_url base lb la 1 vNull) = .ok (vMap m))
    (hrv : mapLookup m "r25:reservation" = some rv)
    (hfp : parse_reservation_data o (coerceToList rv) = .ok firstPage)
    (hpc : pyToInt (mapGetD m "@page_count" (vStr "1")) = .ok n)
    (hn2 : 1 < n)
    (hkey : mapLookup m "@paginate_key" = some pk) :
    scrape_reservations fetch o base lb la =
      (build_reservations_url base lb la 1 vNull ::
         (scrapePagesLoop fetch o base lb la pk
           (pyRange 2 (n + 1)) firstPage).1,
       match (scrapePagesLoop fetch o base lb la pk
           (pyRange 2 (n + 1)) firstPage).2 with
       | .error e => .error e
       | .ok allRes => filter_reservations_by_type allRes) := by
  have hmne : m ≠ [] := by
    intro h
    subst h
    simp [mapLookup] at hrv
  have htr : pyTruthy (vMap m) = true := by simp [pyTruthy, hmne]
  have hin : pyInV "r25:reservation" (vMap m) = .ok true := by
    simp [pyInV, mapLookup_any, hrv]
  have hidx := pyIndex_of_some m "r25:reservation" rv hrv
  have hkidx := pyIndex_of_some m "@paginate_key" pk hkey
  have hget : pyGetD (vMap m) "@page_count" (vStr "1") =
      .ok (mapGetD m "@page_count" (vStr "1")) := rfl
  simp only [scrape_reservations, h1, htr, hin, hidx, hfp, hget, hpc, hkidx,
    if_pos hn2]
  simp

/-- Unfolding of `scrape_reservations` on a well-formed first page whose
`page_count` is at most 1: a single fetch, then the filter. -/
lemma scrape_unfold_one {DT : Type} (fetch : String → Except PyErr Value)
    (o : DatetimeOracle DT) (base lb la : String)
    (m : List (String × Value)) (rv : Value) (firstPage : List Processed)
    (n : Int)
    (h1 : fetch (build_reservations_url base lb la 1 vNull) = .ok (vMap m))
    (hrv : mapLookup m "r25:reservation" = some rv)
    (hfp : parse_reservation_data o (coerceToList rv) = .ok firstPage)
    (hpc : pyToInt (mapGetD m "@page_count" (vStr "1")) = .ok n)
    (hn1 : ¬ 1 < n) :
    scrape_reservations fetch o base lb la =
      ([build_reservations_url base lb la 1 vNull],
       filter_reservations_by_type firstPage) := by
  have hmne : m ≠ [] := by
    intro h
    subst h
    simp [mapLookup] at hrv
  have htr : pyTruthy (vMap m) = true := by simp [pyTruthy, hmne]
  have hin : pyInV "r25:reservation" (vMap m) = .ok true := by
    simp [pyInV, mapLookup_any, hrv]
  have hidx := pyIndex_of_some m "r25:reservation" rv hrv
  have hget : pyGetD (vMap m) "@page_count" (vStr "1") =
      .ok (mapGetD m "@page_count" (vStr "1")) := rfl
  simp only [scrape_reservations, h1, htr, hin, hidx, hfp, hget, hpc,
    if_neg hn1]
  simp

/-- When every page in the list fetches and parses cleanly, the page loop
requests exactly the URL of each page, in list order, and succeeds. -/
lemma scrapePagesLoop_all_ok {DT : Type} (fetch : String → Except PyErr Value)
    (o : DatetimeOracle DT) (base lb la : String) (pk : Value) :
    ∀ (pages : List Int) (acc : List Processed),
      (∀ p ∈ pages, ∃ env rv ps,
         fetch (build_reservations_url base lb la p pk) = .ok env ∧
         pyIndex env "r25:reservation" = .ok rv ∧
         parse_reservation_data o (coerceToList rv) = .ok ps) →
      (scrapePagesLoop fetch o base lb la pk pages acc).1 =
        pages.map (fun p => build_reservations_url base lb la p pk) ∧
      ∃ l, (scrapePagesLoop fetch o base lb la pk pages acc).2 = .ok l := by
  intro pages
  induction pages with
  | nil => exact fun acc _ => ⟨rfl, ⟨acc, rfl⟩⟩
  | cons p rest ih =>
    intro acc h
    obtain ⟨env, rv, ps, hf, hi, hp⟩ := h p (List.mem_cons_self p rest)
    have hrest := ih (acc ++ ps) (fun q hq => h q (List.mem_cons_of_mem p hq))
    have hstep : scrapePagesLoop fetch o base lb la pk (p :: rest) acc =
        (build_reservations_url base lb la p pk ::
           (scrapePagesLoop fetch o base lb la pk rest (acc ++ ps)).1,
         (scrapePagesLoop fetch o base lb la pk rest (acc ++ ps)).2) := by
      simp only [scrapePagesLoop, hf, hi, hp]
    rw [hstep]
    exact ⟨by simp [hrest.1], hrest.2⟩

/-! ### C4: the fetch trace of a paginated date-range call -/

/-- C4: on a date-range call whose first page fetches cleanly, reports
`page_count = n` (`n ≥ 1`) and carries a (non-empty string) continuation
key, and whose remaining pages all fetch and parse cleanly,
`scrape_reservations` issues exactly `n` fetches: page 1 at the plain
query URL — no continuation token, no page number — and pages `2..n` in
strictly increasing order, each at the page-1 URL extended with the SAME
captured `paginate` key and the page number, which increments by exactly 1
(the pages walked are literally `range(2, n+1)`). -/
theorem scrape_pagination_trace {DT : Type} (fetch : String → Except PyErr Value)
    (o : DatetimeOracle DT) (base lb la : String)
    (m : List (String × Value)) (rv : Value) (firstPage : List Processed)
    (n : Int) (key : String)
    (h1 : fetch (build_reservations_url base lb la 1 vNull) = .ok (vMap m))
    (hrv : mapLookup m "r25:reservation" = some rv)
    (hfp : parse_reservation_data o (coerceToList rv) = .ok firstPage)
    (hpc : pyToInt (mapGetD m "@page_count" (vStr "1")) = .ok n)
    (hn : 1 ≤ n)
    (hkey : mapLookup m "@paginate_key" = some (vStr key))
    (hkeyne : key ≠ "")
    (hloop : ∀ p ∈ pyRange 2 (n + 1), ∃ env rv2 ps,
       fetch (build_reservations_url base lb la p (vStr key)) = .ok env ∧
       pyIndex env "r25:reservation" = .ok rv2 ∧
       parse_reservation_data o (coerceToList rv2) = .ok ps) :
    (scrape_reservations fetch o base lb la).1 =
      build_reservations_url base lb la 1 vNull ::
        (pyRange 2 (n + 1)).map
          (fun p => build_reservations_url base lb la p (vStr key)) ∧
    (scrape_reservations fetch o base lb la).1.length = n.toNat ∧
    build_reservations_url base lb la 1 vNull =
      base ++ "/reservations.xml" ++ "?start_dt=" ++ lb ++ "&end_dt=" ++ la ++
        "&paginate&page_size=" ++ toString PAGE_SIZE ∧
    (∀ p : Int, 1 < p →
       build_reservations_url base lb la p (vStr key) =
         base ++ "/reservations.xml" ++ "?start_dt=" ++ lb ++ "&end_dt=" ++ la ++
           "&paginate&page_size=" ++ toString PAGE_SIZE ++
           "&paginate=" ++ key ++ "&page=" ++ toString p) ∧
    pyRange 2 (n + 1) =
      (List.range (n - 1).toNat).map (fun i : Nat => 2 + (i : Int)) := by
  have hurl1 : build_reservations_url base lb la 1 vNull =
      base ++ "/reservations.xml" ++ "?start_dt=" ++ lb ++ "&end_dt=" ++ la ++
        "&paginate&page_size=" ++ toString PAGE_SIZE := by
    simp [build_reservations_url]
  have hurlp : ∀ p : Int, 1 < p →
      build_reservations_url base lb la p (vStr key) =
        base ++ "/reservations.xml" ++ "?start_dt=" ++ lb ++ "&end_dt=" ++ la ++
          "&paginate&page_size=" ++ toString PAGE_SIZE ++
          "&paginate=" ++ key ++ "&page=" ++ toString p := by
    intro p hp
    have htr : pyTruthy (vStr key) = true := by simp [pyTruthy, hkeyne]
    simp [build_reservations_url, hp, htr, pyStr]
  have hrange : pyRange 2 (n + 1) =
      (List.range (n - 1).toNat).map (fun i : Nat => 2 + (i : Int)) := by
    have harg : ((n + 1 : Int) - 2) = n - 1 := by ring
    unfold pyRange
    rw [harg]
  have htrace : (scrape_reservations fetch o base lb la).1 =
      build_reservations_url base lb la 1 vNull ::
        (pyRange 2 (n + 1)).map
          (fun p => build_reservations_url base lb la p (vStr key)) := by
    by_cases hn2 : 1 < n
    · rw [scrape_unfold_good fetch o base lb la m rv firstPage n (vStr key)
        h1 hrv hfp hpc hn2 hkey]
      have hl := scrapePagesLoop_all_ok fetch o base lb la (vStr key)
        (pyRange 2 (n + 1)) firstPage hloop
      simp [hl.1]
    · rw [scrape_unfold_one fetch o base lb la m rv firstPage n
        h1 hrv hfp hpc hn2]
      have hn1 : n = 1 := by omega
      subst hn1
      have : pyRange 2 2 = [] := by simp [pyRange]
      simp [this]
  refine ⟨htrace, ?_, hurl1, hurlp, hrange⟩
  rw [htrace]
  simp only [List.length_cons, List.length_map]
  unfold pyRange
  rw [List.length_map, List.length_range]
  omega

/-- C4 witness: the 3-page example issues exactly 3 fetches, pages 2 and 3
reusing the page-1 key in increasing order. -/
theorem scrape_pagination_trace_witness :
    (1 : Int) ≤ 3 ∧
    (scrape_reservations pgFetch nullOracle pgBase "+0" "+6").1 =
      build_reservations_url pgBase "+0" "+6" 1 vNull ::
        (pyRange 2 (3 + 1)).map
          (fun p => build_reservations_url pgBase "+0" "+6" p (vStr "KEY123")) ∧
    (scrape_reservations pgFetch nullOracle pgBase "+0" "+6").1.length =
      (3 : Int).toNat := by
  have h := scrape_pagination_trace pgFetch nullOracle pgBase "+0" "+6"
    pgEnv1 (vMap [("r25:event_type_name", vStr "BL-Lecture")])
    [blankRec (vStr "BL-Lecture") (some (vStr "Not Specified"))
       (some (vStr "Not Specified"))]
    3 "KEY123" rfl rfl rfl rfl (by decide) rfl (by decide)
    (by
      intro p hp
      rw [show pyRange 2 (3 + 1) = [2, 3] from rfl] at hp
      rcases List.mem_cons.mp hp with rfl | hp2
      · exact ⟨pgEnvRest, vList [], [], rfl, rfl, rfl⟩
      · rcases List.mem_cons.mp hp2 with rfl | hp3
        · exact ⟨pgEnvRest, vList [], [], rfl, rfl, rfl⟩
        · exact absurd hp3 (List.not_mem_nil p))
  exact ⟨by decide, h.1, h.2.1⟩

/-! ### C1: abort behaviour of a date-range call -/

/-- C1 counterexample theorem: the records field is absent from page 1's
envelope, yet the call returns `ok []` — not an error — and stops after
one fetch. -/
theorem scrape_missing_records_page1_cex :
    mapLookup [("@page_count", vStr "3"), ("@paginate_key", vStr "K")]
      "r25:reservation" = none ∧
    scrape_reservations noRecFetch nullOracle pgBase "+0" "+6" =
      ([build_reservations_url pgBase "+0" "+6" 1 vNull], .ok []) :=
  ⟨rfl, rfl⟩

/-- C1 amended: (1) a failed fetch of page 1 aborts the whole call with
the underlying error; (2) — the corrected part — a missing records field
on page 1 does NOT abort: the call returns an empty list with no error;
(3) within the page walk over pages 2..page_count, a failed fetch of the
next page aborts the walk with the underlying error, and a missing
records field aborts it with a `KeyError`; (4) when the page walk aborts,
the whole call returns exactly that error, so no partial page results
escape. -/
theorem scrape_abort_spec {DT : Type} (fetch : String → Except PyErr Value)
    (o : DatetimeOracle DT) (base lb la : String) :
    (∀ e, fetch (build_reservations_url base lb la 1 vNull) = .error e →
       scrape_reservations fetch o base lb la =
         ([build_reservations_url base lb la 1 vNull], .error e)) ∧
    (∀ m, fetch (build_reservations_url base lb la 1 vNull) = .ok (vMap m) →
       mapLookup m "r25:reservation" = none →
       scrape_reservations fetch o base lb la =
         ([build_reservations_url base lb la 1 vNull], .ok [])) ∧
    (∀ pk p rest acc,
       (∀ e, fetch (build_reservations_url base lb la p pk) = .error e →
          (scrapePagesLoop fetch o base lb la pk (p :: rest) acc).2 =
            .error e) ∧
       (∀ m2, fetch (build_reservations_url base lb la p pk) = .ok (vMap m2) →
          mapLookup m2 "r25:reservation" = none →
          (scrapePagesLoop fetch o base lb la pk (p :: rest) acc).2 =
            .error (.keyError "r25:reservation"))) ∧
    (∀ m rv firstPage n key,
       fetch (build_reservations_url base lb la 1 vNull) = .ok (vMap m) →
       mapLookup m "r25:reservation" = some rv →
       parse_reservation_data o (coerceToList rv) = .ok firstPage →
       pyToInt (mapGetD m "@page_count" (vStr "1")) = .ok n → 1 < n →
       mapLookup m "@paginate_key" = some (vStr key) →
       ∀ e, (scrapePagesLoop fetch o base lb la (vStr key)
           (pyRange 2 (n + 1)) firstPage).2 = .error e →
         (scrape_reservations fetch o base lb la).2 = .error e) := by
  refine ⟨?_, ?_, ?_, ?_⟩
  · intro e he
    simp only [scrape_reservations, he]
  · intro m h1 hnone
    by_cases hm : m = []
    · subst hm
      simp [scrape_reservations, h1, pyTruthy]
    · have hin : pyInV "r25:reservation" (vMap m) = .ok false := by
        simp [pyInV, mapLookup_any, hnone]
      have htr : pyTruthy (vMap m) = true := by simp [pyTruthy, hm]
      simp [scrape_reservations, h1, htr, hin]
  · intro pk p rest acc
    constructor
    · intro e he
      simp only [scrapePagesLoop, he]
    · intro m2 hf hnone
      have hidx := pyIndex_of_none m2 "r25:reservation" hnone
      simp only [scrapePagesLoop, hf, hidx]
  · intro m rv firstPage n key h1 hrv hfp hpc hn2 hkey e herr
    rw [scrape_unfold_good fetch o base lb la m rv firstPage n (vStr key)
      h1 hrv hfp hpc hn2 hkey]
    simp only [herr]

/-- C1 amended witness: a page-1 fetch failure aborts the call with the
underlying error, after exactly one attempted fetch. -/
theorem scrape_abort_spec_witness :
    scrape_reservations failFetch nullOracle pgBase "+0" "+6" =
      ([build_reservations_url pgBase "+0" "+6" 1 vNull],
       .error (.exn "connection refused")) :=
  (scrape_abort_spec failFetch nullOracle pgBase "+0" "+6").1
    (.exn "connection refused") rfl

end Collegenet
